import Mathlib

/-!
Verification of the fact-checking widget (src/streamlit-app.py).

The program is a single-file Streamlit app.  Its logic is embedded
shallowly here:

* the feed data model mirrors a `feedparser` entry with the fields the
  program reads: `title`, `link`, `source` (itself holding `href` and
  `title`) and `published`.  A field whose key is absent from the parsed
  entry is `none`; a field that is present but empty is `some ""`.
  Python truthiness of such a field is the `truthy` predicate below.
* `get_recent_articles` keeps the filtering part of the source function
  (the network fetch is modelled by passing the parsed entries in as an
  argument).  Attribute access `entry.title` on a feedparser entry raises
  `AttributeError` when the key is absent, and the list comprehension in
  the source has no exception handler, so the function is embedded in
  `Except`: `Except.error ()` is an uncaught exception escaping the
  comprehension.  The `and` in `entry.title and entry.link` short
  circuits, so `entry.link` is only touched when the title is truthy.
* `random.shuffle` (CPython) is the Fisher-Yates loop
  `for i in reversed(range(1, len(x))): j = randbelow(i+1); swap x[i] x[j]`.
  It is embedded as `pyShuffle`, parameterised by the random source
  `rng : Nat → Nat`; at step `i` the drawn index is `rng i % (i + 1)`,
  which ranges over `[0, i]` exactly as `randbelow (i+1)` does.
* `sample_articles` mutates its argument (the in-place shuffle), so its
  embedding returns both the sample and the shuffled list that the
  variable of the caller holds after the call.  Inside its loop every field
  is read with `.get`, which returns `None` for a missing key and never
  raises; the only raising access is `.get("href")`/`.get("title")` on
  the `None` returned by `.get("source")` when the entry has no source,
  and that raise is swallowed by the bare `except`.  `processEntry`
  returns `none` exactly when the entry is skipped (by exception or by
  the truthiness test) and `some` with the built dictionary otherwise.
* the fact-check part of `main` (prompt construction, the o1 special
  case, the request, and the trailing display of `fact_check_result`,
  which sits outside the if/else and therefore raises
  `UnboundLocalError` on the empty-headline branch) is embedded as
  `fact_check_handler`, parameterised by the chat-completion client
  `client : ChatRequest → ChatResponse`; the list of issued requests is
  returned so that theorems can speak about what went over the wire.
* the API-key gate at the top of `main` is `credential_gate`; the probe
  `client.models.list()` is modelled by its outcome `ProbeResult`.
  `main_model` strings the gate and the handler together the way `main`
  does: the handler is reachable only when the gate lets control fall
  through.
-/

namespace FactCheckWidget

/-- The `source` sub-dictionary of a feed entry: `href` and `title`. -/
structure FeedSource where
  href : Option String
  title : Option String
deriving DecidableEq, Repr

/-- A parsed feed entry with the four keys the program reads.
`none` means the key is absent from the entry. -/
structure FeedEntry where
  title : Option String
  link : Option String
  source : Option FeedSource
  published : Option String
deriving DecidableEq, Repr

/-- The dictionary built by `sample_articles` for one qualifying entry. -/
structure Article where
  title : String
  href : String
  source_domain : String
  source_title : String
  published_date : String
deriving DecidableEq, Repr

/-- Python truthiness of a field value: `None` and the empty string are
falsy, every other string is truthy. -/
def truthy : Option String → Bool
  | none => false
  | some s => s != ""

/-- Attribute access on a feedparser entry: returns the value when the
key is present and raises `AttributeError` (modelled as `Except.error`)
when it is absent. -/
def attrGet (v : Option String) : Except Unit String :=
  match v with
  | none => Except.error ()
  | some s => Except.ok s

/-- The test `entry.title and entry.link` of the list comprehension in
`get_recent_articles`, with Python short-circuit evaluation: when the
title is falsy the link attribute is never read. -/
def keepEntry (e : FeedEntry) : Except Unit Bool :=
  match attrGet e.title with
  | Except.error u => Except.error u
  | Except.ok t =>
    if t = "" then Except.ok false
    else
      match attrGet e.link with
      | Except.error u => Except.error u
      | Except.ok l => Except.ok (l != "")

/-- `get_recent_articles` without the network fetch: the list
comprehension `[entry for entry in feed.entries if entry.title and
entry.link]`.  An `AttributeError` raised by a field access propagates
out of the comprehension (there is no handler), aborting the whole
call. -/
def get_recent_articles : List FeedEntry → Except Unit (List FeedEntry)
  | [] => Except.ok []
  | e :: rest =>
    match keepEntry e with
    | Except.error u => Except.error u
    | Except.ok keep =>
      match get_recent_articles rest with
      | Except.error u => Except.error u
      | Except.ok tail => Except.ok (if keep then e :: tail else tail)

/-- One iteration of the `for article in articles` body of
`sample_articles`: the guarded field reads, the bare `except` and the
truthiness test.  `none` means the entry was skipped (either because
`.get("source")` returned `None` — so the chained `.get` raised and the
`except` swallowed it — or because some field was falsy); `some` carries
the dictionary appended to the sample. -/
def processEntry (a : FeedEntry) : Option Article :=
  match a.source with
  | none => none
  | some src =>
    if truthy a.title && truthy a.link && truthy src.href &&
        truthy src.title && truthy a.published then
      some { title := a.title.getD "", href := a.link.getD "",
             source_domain := src.href.getD "", source_title := src.title.getD "",
             published_date := a.published.getD "" }
    else none

/-- Swap the elements at positions `i` and `j` of a list, the effect of
`x[i], x[j] = x[j], x[i]` on a Python list (in-place, modelled by
returning the new list).  Out-of-range indices leave the list unchanged
(they cannot occur in the shuffle loop). -/
def swapList (xs : List α) (i j : Nat) : List α :=
  match xs[i]?, xs[j]? with
  | some a, some b => (xs.set i b).set j a
  | _, _ => xs

/-- The index sequence of CPython `random.shuffle`:
`reversed(range(1, len(x)))`, i.e. `n-1, n-2, ..., 1`. -/
def shuffleIndices (n : Nat) : List Nat :=
  (List.range' 1 (n - 1)).reverse

/-- CPython `random.shuffle`: Fisher-Yates from the top.  The random
source is `rng`; at step `i` the drawn index `j = rng i % (i + 1)` lies
in `[0, i]`, the range of `_randbelow(i + 1)`. -/
def pyShuffle (rng : Nat → Nat) (xs : List α) : List α :=
  (shuffleIndices xs.length).foldl (fun l i => swapList l i (rng i % (i + 1))) xs

/-- The `for` loop of `sample_articles`: walk the (already shuffled)
list, append the dictionary of each qualifying entry, stop as soon as the
sample holds five. -/
def sampleLoop : List FeedEntry → List Article → List Article
  | [], sample => sample
  | a :: rest, sample =>
    match processEntry a with
    | some art =>
      if (sample ++ [art]).length = 5 then sample ++ [art]
      else sampleLoop rest (sample ++ [art])
    | none =>
      if sample.length = 5 then sample else sampleLoop rest sample

/-- `sample_articles`.  The Python function shuffles its argument in
place and returns the sample; the embedding returns the pair
(sample, state of the list of the caller after the call). -/
def sample_articles (rng : Nat → Nat) (articles : List FeedEntry) :
    List Article × List FeedEntry :=
  let shuffled := pyShuffle rng articles
  (sampleLoop shuffled [], shuffled)

/-- The feed-sampling pipeline as `main` runs it on a Fetch click:
`articles = get_recent_articles(); sampled = sample_articles(articles)`.
An exception escaping `get_recent_articles` propagates. -/
def fetch_sample (rng : Nat → Nat) (entries : List FeedEntry) :
    Except Unit (List Article × List FeedEntry) :=
  match get_recent_articles entries with
  | Except.error u => Except.error u
  | Except.ok recent => Except.ok (sample_articles rng recent)

/-- The model menu `MODEL_MAP`: display name to provider model id. -/
def MODEL_MAP : List (String × String) :=
  [("GPT-3.5 Turbo", "gpt-3.5-turbo"),
   ("GPT-4o", "gpt-4o"),
   ("ChatGPT-4o (Latest used in ChatGPT)", "chatgpt-4o-latest"),
   ("GPT-4o Mini", "gpt-4o-mini"),
   ("o1", "o1"),
   ("o1 Mini", "o1-mini")]

/-- The literal list `["o1", "o1-mini"]` tested before the request. -/
def o1_models : List String := ["o1", "o1-mini"]

/-- The prompt f-string: literal substitution of the headline, nothing
escaped, truncated or sanitised. -/
def build_prompt (article_title : String) : String :=
  "I saw something today that claimed " ++ article_title ++
    ". Do you think that this is likely to be true?"

/-- One role/content message of a chat-completion request. -/
structure ChatMessage where
  role : String
  content : String
deriving DecidableEq, Repr

/-- An outbound `client.chat.completions.create` call: the keyword
arguments the program passes.  `temperature = none` means the keyword
was not passed at all. -/
structure ChatRequest where
  model : String
  messages : List ChatMessage
  temperature : Option ℚ
deriving DecidableEq, Repr

/-- One candidate completion of a response. -/
structure Choice where
  message : ChatMessage
deriving DecidableEq, Repr

/-- A chat-completion response: the list of candidate completions. -/
structure ChatResponse where
  choices : List Choice
deriving DecidableEq, Repr

/-- What the Fact-check click ends in. -/
inductive FCOutcome where
  /-- The trailing `st.write(fact_check_result)` (which runs whether or
  not the headline was empty) raises `UnboundLocalError`: on the
  empty-headline branch the name `fact_check_result` is never
  assigned. -/
  | unboundLocalError : FCOutcome
  /-- `response.choices[0]` on an empty candidate list raises. -/
  | indexError : FCOutcome
  /-- `fact_check_result` as written by `st.write`. -/
  | result : String → FCOutcome
deriving DecidableEq, Repr

/-- Everything observable about one Fact-check click: the outcome the
click block ends in, the chat-completion requests issued during the
click, whether the temperature-ignored warning was displayed, and
whether the missing-headline validation warning was displayed. -/
structure DispatchTrace where
  outcome : FCOutcome
  requests : List ChatRequest
  temp_warning : Bool
  empty_warning : Bool
deriving Repr

/-- The keyword arguments of one `client.chat.completions.create` call
as the program passes them: the model id, a single user message holding
the prompt, and — unless omitted — the temperature. -/
def mkRequest (model_id prompt : String) (temperature : Option ℚ) : ChatRequest :=
  { model := model_id,
    messages := [{ role := "user", content := prompt }],
    temperature := temperature }

/-- The body of the `if st.button("Fact check")` block of `main`:
validation of the headline, prompt construction, the o1/o1-mini special
case that drops the `temperature` keyword and warns, the single
`client.chat.completions.create` call, the extraction of
`response.choices[0].message.content`, and the trailing
`st.subheader`/`st.write(fact_check_result)` pair, which sits outside
the if/else and runs on both branches.  On the empty-headline branch
the validation warning is displayed and no request is issued, but the
trailing `st.write(fact_check_result)` then raises `UnboundLocalError`
because the name was never assigned in that run. -/
def fact_check_handler (client : ChatRequest → ChatResponse)
    (article_title : String) (model_id : String) (temperature : ℚ) :
    DispatchTrace :=
  if article_title = "" then
    { outcome := FCOutcome.unboundLocalError, requests := [],
      temp_warning := false, empty_warning := true }
  else
    let prompt := build_prompt article_title
    let req : ChatRequest :=
      if model_id ∈ o1_models then mkRequest model_id prompt none
      else mkRequest model_id prompt (some temperature)
    let response := client req
    match response.choices with
    | [] =>
      { outcome := FCOutcome.indexError, requests := [req],
        temp_warning := model_id ∈ o1_models, empty_warning := false }
    | c :: _ =>
      { outcome := FCOutcome.result c.message.content, requests := [req],
        temp_warning := model_id ∈ o1_models, empty_warning := false }

/-- Outcome of the probe call `client.models.list()` made to test the
API key. -/
inductive ProbeResult where
  | ok : ProbeResult
  | error : String → ProbeResult
deriving DecidableEq, Repr

/-- The piece of `st.session_state` the program writes. -/
structure SessionState where
  api_key_valid : Bool
deriving DecidableEq, Repr

/-- The API-key gate at the top of `main` (the `if openai_api_key:`
block).  Returns the session state it stores and whether control falls
through to the rest of `main` (both `except` and `else` end in
`return`). -/
def credential_gate (openai_api_key : String) (probe : ProbeResult) :
    SessionState × Bool :=
  if openai_api_key = "" then
    ({ api_key_valid := false }, false)
  else
    match probe with
    | ProbeResult.ok => ({ api_key_valid := true }, true)
    | ProbeResult.error _ => ({ api_key_valid := false }, false)

/-- `main`, restricted to the state the claims are about: the credential
gate followed — only when the gate falls through — by the Fact-check
click handler.  Returns the stored session state and every
chat-completion request issued during the run. -/
def main_model (openai_api_key : String) (probe : ProbeResult)
    (client : ChatRequest → ChatResponse) (fact_check_clicked : Bool)
    (article_title : String) (model_id : String) (temperature : ℚ) :
    SessionState × List ChatRequest :=
  let gate := credential_gate openai_api_key probe
  if gate.2 then
    if fact_check_clicked then
      (gate.1, (fact_check_handler client article_title model_id temperature).requests)
    else
      (gate.1, [])
  else
    (gate.1, [])

/-! Predicates used to state the claims, and concrete demo inputs. -/

/-- The test of the pre-filter in `get_recent_articles`: both title and
link truthy. -/
def prefilterKeep (e : FeedEntry) : Bool :=
  truthy e.title && truthy e.link

/-- The attribute accesses of the pre-filter do not raise on this entry:
the title key is present, and when the title is truthy (so that the
short-circuit reaches the link) the link key is present too. -/
def prefilterSafe (e : FeedEntry) : Bool :=
  e.title.isSome && (!truthy e.title || e.link.isSome)

/-- All five required fields (title, link, source domain, source title,
published date) present and non-empty — the qualification the claims
count with. -/
def hasAllFields (e : FeedEntry) : Bool :=
  truthy e.title && truthy e.link &&
    (match e.source with
     | none => false
     | some src => truthy src.href && truthy src.title) &&
    truthy e.published

/-- All five fields of a built article dictionary are non-empty. -/
def articleComplete (a : Article) : Prop :=
  a.title ≠ "" ∧ a.href ≠ "" ∧ a.source_domain ≠ "" ∧
    a.source_title ≠ "" ∧ a.published_date ≠ ""

/-- The pre-filter as claim C7 words it: an entry is kept unless it
lacks both the title and the link. -/
def keptPerClaimC7 (e : FeedEntry) : Bool :=
  truthy e.title || truthy e.link

/-- A fully populated demo entry with the given title. -/
def demoEntry (t : String) : FeedEntry :=
  { title := some t, link := some "https://x", published := some "today",
    source := some { href := some "https://s", title := some "S" } }

/-- Six distinct qualifying demo entries. -/
def demoFeed : List FeedEntry :=
  [demoEntry "a", demoEntry "b", demoEntry "c",
   demoEntry "d", demoEntry "e", demoEntry "f"]

/-- An entry with no keys at all: every field access raises. -/
def bareEntry : FeedEntry :=
  { title := none, link := none, source := none, published := none }

/-- An entry with a non-empty title and a present-but-empty link. -/
def emptyLinkEntry : FeedEntry :=
  { title := some "t", link := some "", source := none, published := none }

/-! Lemmas about the shuffle. -/

/-- Swapping two positions of a list permutes it. -/
theorem swapList_perm {α : Type} [DecidableEq α] (xs : List α) (i j : Nat) :
    (swapList xs i j).Perm xs := by
  rw [swapList]
  cases hi : xs[i]? with
  | none => simp
  | some a =>
    cases hj : xs[j]? with
    | none => simp
    | some b =>
      obtain ⟨hil, hxi⟩ := List.getElem?_eq_some_iff.mp hi
      obtain ⟨hjl, hxj⟩ := List.getElem?_eq_some_iff.mp hj
      rw [List.perm_iff_count]
      intro x
      have hjl2 : j < (xs.set i b).length := by simpa using hjl
      rw [List.count_set a x (xs.set i b) j hjl2, List.count_set b x xs i hil]
      have h3 : (xs.set i b)[j] = b := by
        rw [List.getElem_set]
        split
        · rfl
        · exact hxj
      rw [h3, ← hxi]
      split_ifs with h1 h2
      · have hc : 0 < xs.count x :=
          List.count_pos_iff.mpr (eq_of_beq h1 ▸ List.getElem_mem hil)
        omega
      · have hc : 0 < xs.count x :=
          List.count_pos_iff.mpr (eq_of_beq h1 ▸ List.getElem_mem hil)
        omega
      · omega
      · omega

/-- Folding swaps over any index list permutes the start list. -/
theorem foldl_swapList_perm {α : Type} [DecidableEq α] (rng : Nat → Nat)
    (is : List Nat) (xs : List α) :
    (is.foldl (fun l i => swapList l i (rng i % (i + 1))) xs).Perm xs := by
  induction is generalizing xs with
  | nil => simp
  | cons i rest ih =>
    exact (ih (swapList xs i (rng i % (i + 1)))).trans (swapList_perm xs i _)

/-- The shuffle returns a permutation of its input, whatever the random
source does. -/
theorem pyShuffle_perm {α : Type} [DecidableEq α] (rng : Nat → Nat) (xs : List α) :
    (pyShuffle rng xs).Perm xs :=
  foldl_swapList_perm rng (shuffleIndices xs.length) xs

/-! Lemmas about the sampling loop. -/

/-- The loop of `sample_articles` is: build the dictionaries of the
qualifying entries in order and keep the first five. -/
theorem sampleLoop_eq (l : List FeedEntry) (acc : List Article)
    (h : acc.length < 5) :
    sampleLoop l acc = acc ++ (l.filterMap processEntry).take (5 - acc.length) := by
  induction l generalizing acc with
  | nil => simp [sampleLoop]
  | cons a rest ih =>
    simp only [sampleLoop]
    cases hpa : processEntry a with
    | none =>
      dsimp only
      rw [if_neg (by omega), List.filterMap_cons_none hpa]
      exact ih acc h
    | some art =>
      dsimp only
      rw [List.filterMap_cons_some hpa]
      have hlen : (acc ++ [art]).length = acc.length + 1 := by simp
      simp only [hlen]
      by_cases h5 : acc.length + 1 = 5
      · rw [if_pos h5]
        have ht : 5 - acc.length = 1 := by omega
        rw [ht]
        simp
      · rw [if_neg h5]
        rw [ih (acc ++ [art]) (by rw [hlen]; omega)]
        have ht : 5 - acc.length = (5 - (acc ++ [art]).length) + 1 := by
          rw [hlen]; omega
        rw [ht, List.take_succ_cons]
        simp

/-- The sample produced by `sample_articles`: the first five qualifying
dictionaries of the shuffled list. -/
theorem sample_articles_fst (rng : Nat → Nat) (articles : List FeedEntry) :
    (sample_articles rng articles).1 =
      ((pyShuffle rng articles).filterMap processEntry).take 5 := by
  show sampleLoop (pyShuffle rng articles) [] = _
  rw [sampleLoop_eq _ [] (by simp)]
  simp

/-- Characterisation of a successful `processEntry`: the entry is fully
populated and the built dictionary carries its five (non-empty)
fields. -/
theorem processEntry_eq_some_iff {e : FeedEntry} {a : Article} :
    processEntry e = some a ↔
      e = { title := some a.title, link := some a.href,
            source := some { href := some a.source_domain, title := some a.source_title },
            published := some a.published_date } ∧ articleComplete a := by
  constructor
  · intro h
    unfold processEntry at h
    cases e with | mk t l s p =>
    cases s with
    | none => simp at h
    | some src =>
      cases src with | mk sh st =>
      simp only at h
      split at h
      · next hc =>
        injection h with h'
        simp only [Bool.and_eq_true] at hc
        obtain ⟨⟨⟨⟨ht, hl⟩, hh⟩, hst⟩, hp⟩ := hc
        cases t with
        | none => exact absurd ht (by simp [truthy])
        | some ts =>
        cases l with
        | none => exact absurd hl (by simp [truthy])
        | some ls =>
        cases sh with
        | none => exact absurd hh (by simp [truthy])
        | some shs =>
        cases st with
        | none => exact absurd hst (by simp [truthy])
        | some sts =>
        cases p with
        | none => exact absurd hp (by simp [truthy])
        | some ps =>
        simp only [truthy, bne_iff_ne, ne_eq, decide_not] at ht hl hh hst hp
        subst h'
        simp_all [articleComplete, Option.getD]
      · exact absurd h (by simp)
  · rintro ⟨he, h1, h2, h3, h4, h5⟩
    subst he
    simp [processEntry, truthy, h1, h2, h3, h4, h5]

/-- `processEntry` succeeds exactly on entries with all five required
fields present and non-empty. -/
theorem processEntry_isSome_iff_hasAllFields (e : FeedEntry) :
    (processEntry e).isSome = hasAllFields e := by
  unfold processEntry hasAllFields
  cases e with | mk t l s p =>
  cases s with
  | none => simp
  | some src =>
    cases src with | mk sh st =>
    simp only
    cases truthy t <;> cases truthy l <;> cases truthy sh <;>
      cases truthy st <;> cases truthy p <;> simp

/-! Lemmas about the pre-filter. -/

/-- On an entry whose accesses do not raise, the comprehension test
evaluates to the truthiness of title and link. -/
theorem keepEntry_eq_ok (e : FeedEntry) (hs : prefilterSafe e = true) :
    keepEntry e = Except.ok (prefilterKeep e) := by
  cases e with | mk t l s p =>
  unfold prefilterSafe at hs
  unfold keepEntry prefilterKeep attrGet
  dsimp only at hs ⊢
  cases t with
  | none => simp at hs
  | some ts =>
    by_cases hte : ts = ""
    · subst hte
      simp [truthy]
    · have hbne : (ts != "") = true := bne_iff_ne.mpr hte
      simp only [truthy, Option.isSome_some, Bool.true_and, hbne, Bool.not_true,
        Bool.false_or] at hs
      cases l with
      | none => simp at hs
      | some ls => simp [truthy, hte]

/-- When the accesses of no entry raise, `get_recent_articles` returns the
entries whose title and link are both truthy, in feed order. -/
theorem get_recent_articles_eq_filter (entries : List FeedEntry)
    (h : ∀ e ∈ entries, prefilterSafe e = true) :
    get_recent_articles entries = Except.ok (entries.filter prefilterKeep) := by
  induction entries with
  | nil => rfl
  | cons e rest ih =>
    have hk := keepEntry_eq_ok e (h e (by simp))
    have hr := ih (fun x hx => h x (List.mem_cons_of_mem _ hx))
    rw [get_recent_articles, hk, hr]
    simp [List.filter_cons]

/-- A fully populated entry also passes the pre-filter. -/
theorem hasAllFields_and_prefilterKeep (e : FeedEntry) :
    (hasAllFields e && prefilterKeep e) = hasAllFields e := by
  unfold hasAllFields prefilterKeep
  cases truthy e.title <;> cases truthy e.link <;> simp

/-- Under safe entries the pipeline returns `sample_articles` applied to
the pre-filtered feed. -/
theorem fetch_sample_ok (rng : Nat → Nat) (entries : List FeedEntry)
    (h : ∀ e ∈ entries, prefilterSafe e = true) :
    fetch_sample rng entries =
      Except.ok (sample_articles rng (entries.filter prefilterKeep)) := by
  unfold fetch_sample
  rw [get_recent_articles_eq_filter entries h]

/-- The sample size is the number of qualifying entries, capped at 5. -/
theorem sample_articles_length (rng : Nat → Nat) (l : List FeedEntry) :
    (sample_articles rng l).1.length = min (l.countP hasAllFields) 5 := by
  rw [sample_articles_fst, List.length_take, List.length_filterMap_eq_countP]
  rw [(pyShuffle_perm rng l).countP_eq]
  rw [List.countP_congr (fun e _ => by rw [processEntry_isSome_iff_hasAllFields])]
  exact Nat.min_comm _ _

/-- The pre-filter does not change the number of qualifying entries. -/
theorem countP_hasAllFields_filter (entries : List FeedEntry) :
    (entries.filter prefilterKeep).countP hasAllFields =
      entries.countP hasAllFields := by
  rw [List.countP_filter]
  exact List.countP_congr (fun e _ => by rw [hasAllFields_and_prefilterKeep])

/-- Every sampled dictionary has its five fields non-empty. -/
theorem sample_articles_complete (rng : Nat → Nat) (l : List FeedEntry) :
    ∀ a ∈ (sample_articles rng l).1, articleComplete a := by
  intro a ha
  rw [sample_articles_fst] at ha
  obtain ⟨e, _, he⟩ := List.mem_filterMap.mp (List.mem_of_mem_take ha)
  exact (processEntry_eq_some_iff.mp he).2

/-! The claims. -/

/-- C1 counterexample: a feed of two entries — one fully qualifying,
one with no keys at all — has N = 2 and K = 1, so the claim promises
min(K, 5) = 1 returned entries; instead the title attribute access in
the pre-filter raises an uncaught AttributeError and the pipeline
returns nothing. -/
theorem fetch_sample_raises_on_keyless_entry :
    hasAllFields (demoEntry "a") = true ∧
    hasAllFields bareEntry = false ∧
    fetch_sample (fun _ => 0) [demoEntry "a", bareEntry] = Except.error () :=
  ⟨rfl, rfl, rfl⟩

/-- C1 amended: on a feed whose entries survive the unguarded
title/link attribute accesses of the pre-filter (title key present;
link key present when the title is truthy — the proviso forced by the
counterexample), the composition of the `get_recent_articles` filtering
and `sample_articles` returns exactly `min K 5` entries, where `K`
counts the entries with all five required fields present and non-empty,
and every returned entry has all five fields non-empty — for every
state of the random source.  A feed containing an entry without those
keys instead raises. -/
theorem fetch_sample_returns_min_K_5 (rng : Nat → Nat) (entries : List FeedEntry)
    (h : ∀ e ∈ entries, prefilterSafe e = true) :
    ∃ sample rest, fetch_sample rng entries = Except.ok (sample, rest) ∧
      sample.length = min (entries.countP hasAllFields) 5 ∧
      ∀ a ∈ sample, articleComplete a := by
  refine ⟨(sample_articles rng (entries.filter prefilterKeep)).1,
    (sample_articles rng (entries.filter prefilterKeep)).2, ?_, ?_, ?_⟩
  · rw [fetch_sample_ok rng entries h]
  · rw [sample_articles_length, countP_hasAllFields_filter]
  · exact sample_articles_complete rng _

/-- C1 witness: a feed of six qualifying entries and one incomplete one
yields a sample of `min 7-entries-of-which-6-qualify 5 = 5`. -/
theorem fetch_sample_returns_min_K_5_witness :
    ∃ sample rest,
      fetch_sample (fun _ => 0) (demoFeed ++ [emptyLinkEntry]) =
        Except.ok (sample, rest) ∧
      sample.length = min ((demoFeed ++ [emptyLinkEntry]).countP hasAllFields) 5 ∧
      ∀ a ∈ sample, articleComplete a :=
  fetch_sample_returns_min_K_5 (fun _ => 0) (demoFeed ++ [emptyLinkEntry]) (by decide)

/-- C2: for a non-empty headline and a model outside the o1 family, the
dispatch builds the prompt by literal substitution of the headline into
the template (no escaping, truncation or sanitisation), issues exactly
one chat-completion request carrying that prompt as a single user
message together with the selected model id and temperature, and shows
the message content of the first candidate verbatim. -/
theorem fact_check_dispatch_verbatim (client : ChatRequest → ChatResponse)
    (article_title model_id : String) (temperature : ℚ) (c : Choice)
    (cs : List Choice) (hne : article_title ≠ "") (hmod : model_id ∉ o1_models)
    (hresp : (client (mkRequest model_id ("I saw something today that claimed " ++ article_title ++ ". Do you think that this is likely to be true?") (some temperature))).choices = c :: cs) :
    fact_check_handler client article_title model_id temperature =
      { outcome := FCOutcome.result c.message.content,
        requests := [mkRequest model_id ("I saw something today that claimed " ++ article_title ++ ". Do you think that this is likely to be true?") (some temperature)],
        temp_warning := false, empty_warning := false } := by
  simp only [fact_check_handler, build_prompt]
  rw [if_neg hne, if_neg hmod]
  rw [hresp]
  simp [decide_eq_false hmod]

/-- C2 witness: the example headline of the spec against a one-candidate
client. -/
theorem fact_check_dispatch_verbatim_witness :
    fact_check_handler
        (fun _ => { choices := [{ message := { role := "assistant", content := "Unlikely." } }] })
        "The moon is made of cheese" "gpt-4o-mini" (3 / 10) =
      { outcome := FCOutcome.result "Unlikely.",
        requests := [mkRequest "gpt-4o-mini" ("I saw something today that claimed " ++ "The moon is made of cheese" ++ ". Do you think that this is likely to be true?") (some (3 / 10))],
        temp_warning := false, empty_warning := false } :=
  fact_check_dispatch_verbatim
    (fun _ => { choices := [{ message := { role := "assistant", content := "Unlikely." } }] })
    "The moon is made of cheese" "gpt-4o-mini" (3 / 10)
    { message := { role := "assistant", content := "Unlikely." } } []
    (by decide) (by decide) rfl

/-- C3: with a non-empty headline, selecting `o1` or `o1-mini` makes
the single outbound request omit the temperature keyword entirely and
displays the temperature-ignored warning; selecting any other model of
the menu sends the supplied temperature. -/
theorem o1_omits_temperature (client : ChatRequest → ChatResponse)
    (article_title model_id : String) (temperature : ℚ)
    (hne : article_title ≠ "") :
    (model_id ∈ o1_models →
      (fact_check_handler client article_title model_id temperature).requests.map
          ChatRequest.temperature = [none] ∧
      (fact_check_handler client article_title model_id temperature).temp_warning = true) ∧
    (model_id ∈ MODEL_MAP.map Prod.snd → model_id ∉ o1_models →
      (fact_check_handler client article_title model_id temperature).requests.map
          ChatRequest.temperature = [some temperature]) := by
  constructor
  · intro hm
    simp only [fact_check_handler]
    rw [if_neg hne, if_pos hm]
    cases h : (client (mkRequest model_id (build_prompt article_title) none)).choices <;>
      simp [h, mkRequest, decide_eq_true hm]
  · intro _ hm
    simp only [fact_check_handler]
    rw [if_neg hne, if_neg hm]
    cases h : (client (mkRequest model_id (build_prompt article_title) (some temperature))).choices <;>
      simp [h, mkRequest]

/-- C3 witness: `o1` with temperature `7/10` omits the keyword and
warns; `gpt-4o-mini` sends it. -/
theorem o1_omits_temperature_witness :
    ((fact_check_handler (fun _ => { choices := [] }) "h" "o1" (7 / 10)).requests.map
        ChatRequest.temperature = [none] ∧
     (fact_check_handler (fun _ => { choices := [] }) "h" "o1" (7 / 10)).temp_warning = true) ∧
    (fact_check_handler (fun _ => { choices := [] }) "h" "gpt-4o-mini" (7 / 10)).requests.map
        ChatRequest.temperature = [some (7 / 10)] :=
  ⟨(o1_omits_temperature (fun _ => { choices := [] }) "h" "o1" (7 / 10)
      (by decide)).1 (by decide),
   (o1_omits_temperature (fun _ => { choices := [] }) "h" "gpt-4o-mini" (7 / 10)
      (by decide)).2 (by decide) (by decide)⟩

/-- C4: submitting with an empty headline displays the inline
validation warning and issues no chat-completion request at all,
whatever the client, model and temperature — the dispatch is rejected
before any network call.  (The click then ends in the
`UnboundLocalError` raised by the trailing
`st.write(fact_check_result)`, which runs on this branch too; the
warning and the absence of requests are unaffected.) -/
theorem empty_headline_blocks_dispatch (client : ChatRequest → ChatResponse)
    (model_id : String) (temperature : ℚ) :
    fact_check_handler client "" model_id temperature =
      { outcome := FCOutcome.unboundLocalError, requests := [],
        temp_warning := false, empty_warning := true } := by
  unfold fact_check_handler
  rw [if_pos rfl]

/-- C6: when the probe call fails, the run stores the not-ready flag
and returns before the fact-check path, so no request is issued in that
run whatever the user clicked or typed. -/
theorem credential_failure_blocks_dispatch (msg openai_api_key : String)
    (client : ChatRequest → ChatResponse) (fact_check_clicked : Bool)
    (article_title model_id : String) (temperature : ℚ) :
    main_model openai_api_key (ProbeResult.error msg) client fact_check_clicked
        article_title model_id temperature =
      ({ api_key_valid := false }, []) := by
  unfold main_model credential_gate
  by_cases hk : openai_api_key = "" <;> simp [hk]

/-- C5 counterexample: a feed whose single entry has no fields at all —
malformed in the sense of the claim — is not silently dropped: the title
attribute access in the pre-filter of `get_recent_articles` raises, and
nothing catches it, so the pipeline does not return an empty sequence. -/
theorem all_malformed_feed_raises :
    hasAllFields bareEntry = false ∧
    fetch_sample (fun _ => 0) [bareEntry] = Except.error () := by
  constructor
  · rfl
  · rfl

/-- C5 amended: on a feed that is empty or all of whose entries fail
the five-field qualification, the pipeline returns an empty sample and
raises nothing — provided every entry survives the unguarded title/link
attribute accesses of the pre-filter (the guarded accesses inside
`sample_articles` are silently skipped as claimed, but an entry whose
title or link key is absent makes the pre-filter raise). -/
theorem all_malformed_feed_empty_sample (rng : Nat → Nat)
    (entries : List FeedEntry)
    (hsafe : ∀ e ∈ entries, prefilterSafe e = true)
    (hbad : ∀ e ∈ entries, hasAllFields e = false) :
    ∃ rest, fetch_sample rng entries = Except.ok ([], rest) := by
  refine ⟨(sample_articles rng (entries.filter prefilterKeep)).2, ?_⟩
  rw [fetch_sample_ok rng entries hsafe]
  have h1 : (sample_articles rng (entries.filter prefilterKeep)).1.length = 0 := by
    rw [sample_articles_length, countP_hasAllFields_filter]
    have h0 : entries.countP hasAllFields = 0 := by
      rw [List.countP_eq_zero]
      intro a ha
      simp [hbad a ha]
    simp [h0]
  have h2 : (sample_articles rng (entries.filter prefilterKeep)).1 = [] :=
    List.length_eq_zero.mp h1
  rw [← h2]

/-- C5 amended witness: a one-entry feed whose entry has a title but an
empty link yields the empty sample without raising. -/
theorem all_malformed_feed_empty_sample_witness :
    ∃ rest, fetch_sample (fun _ => 0) [emptyLinkEntry] = Except.ok ([], rest) :=
  all_malformed_feed_empty_sample (fun _ => 0) [emptyLinkEntry]
    (by decide) (by decide)

/-- C7 counterexample: an entry with a non-empty title and an empty
link lacks only one of the two fields, so the claim says it is kept —
but the pre-filter discards it. -/
theorem prefilter_not_kept_unless_both_missing :
    keptPerClaimC7 emptyLinkEntry = true ∧
    get_recent_articles [emptyLinkEntry] = Except.ok [] := by
  constructor
  · rfl
  · rfl

/-- C7 amended: the pre-filter discards exactly the entries lacking a
title or lacking a link: an entry is kept iff its title and its link
are both present and non-empty (stated for feeds whose entries carry
the title/link keys, so that the attribute accesses do not raise). -/
theorem prefilter_keeps_iff (entries : List FeedEntry)
    (hsafe : ∀ e ∈ entries, prefilterSafe e = true) :
    ∃ kept, get_recent_articles entries = Except.ok kept ∧
      ∀ e, e ∈ kept ↔ e ∈ entries ∧ truthy e.title = true ∧ truthy e.link = true := by
  refine ⟨entries.filter prefilterKeep,
    get_recent_articles_eq_filter entries hsafe, ?_⟩
  intro e
  rw [List.mem_filter]
  unfold prefilterKeep
  simp [Bool.and_eq_true]

/-- C7 amended witness: a qualifying entry is kept, the empty-link one
is dropped. -/
theorem prefilter_keeps_iff_witness :
    ∃ kept,
      get_recent_articles [demoEntry "a", emptyLinkEntry] = Except.ok kept ∧
      ∀ e, e ∈ kept ↔ e ∈ [demoEntry "a", emptyLinkEntry] ∧
        truthy e.title = true ∧ truthy e.link = true :=
  prefilter_keeps_iff [demoEntry "a", emptyLinkEntry] (by decide)

/-- C8 counterexample: if the list of the caller contains the same entry
twice, both copies survive the shuffle and the qualification test, so
the sample contains a duplicate. -/
theorem sample_can_repeat_duplicated_input :
    ¬ (sample_articles (fun _ => 0) [demoEntry "a", demoEntry "a"]).1.Nodup := by
  decide

/-- C8 amended: when the input list has no duplicate entries, no entry
appears twice in the sample returned by `sample_articles` (distinct
qualifying entries build distinct dictionaries, and each input position
is used at most once). -/
theorem sample_articles_nodup (rng : Nat → Nat) (articles : List FeedEntry)
    (h : articles.Nodup) : (sample_articles rng articles).1.Nodup := by
  rw [sample_articles_fst]
  have hshuf : (pyShuffle rng articles).Nodup :=
    ((pyShuffle_perm rng articles).nodup_iff).mpr h
  have hinj : ∀ (a a' : FeedEntry) (b : Article),
      b ∈ processEntry a → b ∈ processEntry a' → a = a' := by
    intro a a' b hb hb'
    rw [Option.mem_def] at hb hb'
    rw [(processEntry_eq_some_iff.mp hb).1, (processEntry_eq_some_iff.mp hb').1]
  exact List.Nodup.sublist (List.take_sublist 5 _) (hshuf.filterMap hinj)

/-- C8 amended witness: the six distinct demo entries sample without a
repeat. -/
theorem sample_articles_nodup_witness :
    (sample_articles (fun _ => 0) demoFeed).1.Nodup :=
  sample_articles_nodup (fun _ => 0) demoFeed (by decide)

/-- C9: the sampling is randomized, not deterministic: on a feed with
six qualifying entries (more than five), two states of the random
source produce different samples. -/
theorem sampling_randomized :
    demoFeed.countP hasAllFields = 6 ∧
    (sample_articles (fun _ => 0) demoFeed).1 ≠
      (sample_articles (fun i => i) demoFeed).1 := by
  decide

/-- C10: `sample_articles` mutates its argument: the list of the caller
after the call is a permutation of (same multiset as) what it held
before the call, and for some random state the order actually
changes. -/
theorem sample_articles_mutates_argument (rng : Nat → Nat)
    (articles : List FeedEntry) :
    (sample_articles rng articles).2.Perm articles ∧
    ((sample_articles rng articles).2 : Multiset FeedEntry) = ↑articles ∧
    (sample_articles (fun _ => 0) demoFeed).2 ≠ demoFeed := by
  have hperm : (sample_articles rng articles).2.Perm articles :=
    pyShuffle_perm rng articles
  exact ⟨hperm, Multiset.coe_eq_coe.mpr hperm, by decide⟩

end FactCheckWidget
